import Mathlib

/-!
Verification of the lrcfetch-tui lyrics fetcher: a shallow embedding of
`src/main.rs` and `src/musicdata.rs` together with theorems about the
embedded operations.  Rust machine integers (`usize`) are modelled as `Nat`
(all arithmetic in scope stays far below `2^64`, and the one division is
modelled with its panic case made explicit); fallible Rust code returns
`Except`/`Option`; asynchronous spawning and the tokio semaphores are
modelled as an explicit small-step transition system.
-/

set_option autoImplicit false

namespace LrcFetch

/-! ### Filesystem paths

A path is modelled as a stem together with an optional extension; this is
what `PathBuf::set_extension` / `PathBuf::with_extension` manipulate in
`musicdata.rs` (both replace the final extension and keep the stem). -/

structure Path where
  stem : String
  ext : Option String
deriving DecidableEq, Repr

/-- Rust `PathBuf::with_extension` / `set_extension`: replace the extension,
keep the stem. -/
def Path.withExtension (p : Path) (e : String) : Path :=
  ⟨p.stem, some e⟩

/-! ### Lyrics results (`musicdata.rs`, enum `Lyrics`) -/

/-- Embeds `Lyrics` from `musicdata.rs`: `None` is the spec's `Absent`. -/
inductive Lyrics where
  | none
  | synced (lrc : String)
  | plain (lrc : String)
  | instrumental
deriving DecidableEq, Repr

/-- Embeds `MusicData` from `musicdata.rs` (the `Track` of the spec). -/
structure MusicData where
  title : String
  artist : String
  album : String
  duration : Nat
  path : Path
deriving DecidableEq, Repr

/-! ### Case-insensitive substring matching (`Filter::apply` in `main.rs`)

Rust uses `to_ascii_lowercase` and `str::contains` (contiguous substring).
We embed both directly on character lists. -/

/-- Rust `char::to_ascii_lowercase`. -/
def asciiLowerChar (c : Char) : Char :=
  if 'A' ≤ c ∧ c ≤ 'Z' then Char.ofNat (c.toNat + 32) else c

/-- Rust `str::to_ascii_lowercase`. -/
def asciiLower (s : String) : String :=
  String.mk (s.toList.map asciiLowerChar)

/-- Auxiliary for `hasSubstr`: does `needle` occur at the very start of
`hay`? -/
def startsWithList : List Char → List Char → Bool
  | [], _ => true
  | _ :: _, [] => false
  | n :: ns, h :: hs => n = h && startsWithList ns hs

/-- Rust `str::contains(substring)`: `needle` occurs contiguously in
`hay`. -/
def hasSubstr (needle : List Char) : List Char → Bool
  | [] => needle.isEmpty
  | h :: hs => startsWithList needle (h :: hs) || hasSubstr needle hs

/-! ### Filter (`main.rs`, struct `Filter`) -/

/-- The `FilterCriteria` of the spec: `Filter` in `main.rs`. -/
structure Filter where
  title : Option String
  artist : Option String
  album : Option String
deriving DecidableEq, Repr

/-- One field check inside `Filter::apply`: an unset field constrains
nothing; a set field demands a case-insensitive substring match. -/
def fieldMatches (filt : Option String) (value : String) : Bool :=
  match filt with
  | Option.none => true
  | some f => hasSubstr (asciiLower f).toList (asciiLower value).toList

/-- Embeds `Filter::apply` from `main.rs`: the track passes when every set field
matches (the Rust code checks album, artist, title in that order with early
`return false`; the conjunction below is the same function). -/
def Filter.apply (f : Filter) (item : MusicData) : Bool :=
  fieldMatches f.album item.album &&
  fieldMatches f.artist item.artist &&
  fieldMatches f.title item.title

/-! ### Scan-all (`main.rs`, `Func::scan_all`)

`scan_all` iterates over `state.music` filtered by `state.filter`, and for
each such track calls `Func::scan_music` exactly when the lyrics map holds
`Some(Lyrics::None)` or `Some(Lyrics::Plain(_))` for its path.  We model the
lyrics map (`state.lyrics : HashMap<PathBuf, Lyrics>`) as a lookup function
and return the list of tracks for which `scan_music` is invoked, in
issuance order. -/

/-- The `if let Some(Lyrics::None) ... else if let Some(Lyrics::Plain(_))`
test in `Func::scan_all`. -/
def retryCandidate (l : Option Lyrics) : Bool :=
  match l with
  | some Lyrics.none => true
  | some (Lyrics.plain _) => true
  | _ => false

/-- Embeds `Func::scan_all`: the tracks for which a fetch is requested, in order. -/
def scan_all (music : List MusicData) (filter : Filter)
    (lyrics : Path → Option Lyrics) : List MusicData :=
  (music.filter fun m => filter.apply m).filter fun m => retryCandidate (lyrics m.path)

/-! ### Progress counters and one event-loop iteration (`main.rs`, `main`)

The loop body is, in order:
1. if `total == done`, reset both to `0` (`api_joins` is untouched);
2. drain the ready fetch completions: each drained task increments `done`;
3. drain write completions (no counter effect);
4. render;
5. poll one input event and dispatch it; a dispatched `scan_music`
   increments `total` and spawns one task into `api_joins`.
We track the number of spawned-but-unjoined tasks (`inflight`, the size of
`api_joins`) alongside the two counters, and model an iteration by the
number `k` of completions drained (`k` is at most the tasks in flight) and
the number `j` of fetch jobs issued during dispatch. -/

structure Counters where
  total : Nat
  done : Nat
  inflight : Nat
deriving DecidableEq, Repr

/-- Step 1 of the loop: `if state.total == state.done { reset }`. -/
def idleReset (c : Counters) : Counters :=
  if c.total = c.done then { c with total := 0, done := 0 } else c

/-- Step 2 of the loop: join `k` ready tasks, `done += 1` for each. -/
def drainFetches (c : Counters) (k : Nat) : Counters :=
  { c with done := c.done + k, inflight := c.inflight - k }

/-- Embeds `Func::scan_music` called `j` times during dispatch: each call spawns a
task and does `state.total += 1`. -/
def issueJobs (c : Counters) (j : Nat) : Counters :=
  { c with total := c.total + j, inflight := c.inflight + j }

/-- One full iteration of the event loop, as it acts on the counters. -/
def loopIter (c : Counters) (k j : Nat) : Counters :=
  issueJobs (drainFetches (idleReset c) k) j

/-- The bookkeeping invariant tying the counters to the join set: every
uncompleted spawn since the last reset is in flight. -/
def CountersInv (c : Counters) : Prop :=
  c.done + c.inflight = c.total

/-! ### Semaphore pools (`tokio::sync::Semaphore` in `main.rs`)

`Func::scan_music` spawns a task that first awaits
`client_limiter.acquire_owned()`, runs the remote query, then drops the
permit; `LyricsRecord::save` does the same around the sidecar write with
`file_limiter`.  Both limiters are counting semaphores.  We model one pool
as a transition system: a task may be spawned at any time, starts running
only by taking an available permit, and returns its permit when it
finishes.  `running` is the number of concurrently outstanding operations
of that pool's kind. -/

structure PoolState where
  avail : Nat
  waiting : Nat
  running : Nat
  finished : Nat
deriving DecidableEq, Repr

inductive PoolStep : PoolState → PoolState → Prop where
  | spawn (s : PoolState) :
      PoolStep s { s with waiting := s.waiting + 1 }
  | acquire (s : PoolState) (ha : 0 < s.avail) (hw : 0 < s.waiting) :
      PoolStep s { s with avail := s.avail - 1, waiting := s.waiting - 1,
                          running := s.running + 1 }
  | release (s : PoolState) (hr : 0 < s.running) :
      PoolStep s { s with avail := s.avail + 1, running := s.running - 1,
                          finished := s.finished + 1 }

/-- A fresh pool of capacity `cap` (`Semaphore::new(cap)`). -/
def initPool (cap : Nat) : PoolState :=
  ⟨cap, 0, 0, 0⟩

/-- The states a pool of capacity `cap` can reach. -/
def PoolReachable (cap : Nat) (s : PoolState) : Prop :=
  Relation.ReflTransGen PoolStep (initPool cap) s

/-! ### The remote query (`musicdata.rs`, `MusicData::query`)

`query` performs a single GET against the lyrics API and returns a
`Lyrics` (never an error).  We embed the response it sees: either a
transport error, or a status code with a body (whose read may itself
fail).  JSON decoding of the body (`serde_json::from_str::<ApiResponse>`)
is abstracted as a `String → Option ApiResponse` parameter. -/

/-- Embeds `ApiResponse` from `musicdata.rs`. -/
structure ApiResponse where
  instrumental : Bool
  plain_lyrics : Option String
  synced_lyrics : Option String
deriving DecidableEq, Repr

/-- What `client.get(...).send().await` and `response.text().await`
deliver: a transport error, or a status code together with the body read
(`Option.none` when reading the body fails). -/
inductive HttpOutcome where
  | transportError
  | response (status : Nat) (body : Option String)
deriving DecidableEq, Repr

/-- Rust `StatusCode::is_success`: `200..=299`. -/
def statusIsSuccess (status : Nat) : Bool :=
  200 ≤ status && status ≤ 299

/-- Embeds `MusicData::query` from `musicdata.rs`, as a function of the observed
HTTP outcome and of the JSON decoder.  It makes exactly one attempt (it
consumes exactly one `HttpOutcome`) and is total: no error value exists in
its result type. -/
def query (resp : HttpOutcome) (parse : String → Option ApiResponse) : Lyrics :=
  match resp with
  | HttpOutcome.transportError => Lyrics.none
  | HttpOutcome.response status body =>
    if !statusIsSuccess status then Lyrics.none
    else
      match body with
      | Option.none => Lyrics.none
      | some text =>
        match parse text with
        | Option.none => Lyrics.none
        | some lyricsData =>
          match lyricsData.synced_lyrics with
          | some lrc => Lyrics.synced lrc
          | Option.none =>
            match lyricsData.plain_lyrics with
            | some lrc => Lyrics.plain lrc
            | Option.none =>
              if lyricsData.instrumental then Lyrics.instrumental
              else Lyrics.none

/-! ### Sidecar files (`musicdata.rs`, `Lyrics::to_file` and
`MusicData::check_lyrics`)

The filesystem is a map from paths to file contents.  `to_file` writes the
payload at the track path with its extension replaced (`lrc` for synced,
`txt` for plain) and writes nothing for `None`/`Instrumental`.
`check_lyrics` probes the `lrc` sidecar first, then the `txt` one; we also
return the list of paths it reads, in order. -/

def FS : Type := Path → Option String

/-- Embeds `Lyrics::to_file`: the filesystem after the write. -/
def to_file (l : Lyrics) (path : Path) (fs : FS) : FS :=
  match l with
  | Lyrics.none => fs
  | Lyrics.synced lrc =>
      fun p => if p = path.withExtension "lrc" then some lrc else fs p
  | Lyrics.plain lrc =>
      fun p => if p = path.withExtension "txt" then some lrc else fs p
  | Lyrics.instrumental => fs

/-- Embeds `MusicData::check_lyrics` on its success path: the probed result and
the list of sidecar files actually read.  (In Rust a failing
`read_to_string` propagates as `Err`; reads of files present in `fs`
succeed, which is all the claims need.) -/
def check_lyrics (fs : FS) (path : Path) : Lyrics × List Path :=
  match fs (path.withExtension "lrc") with
  | some lyrics => (Lyrics.synced lyrics, [path.withExtension "lrc"])
  | Option.none =>
    match fs (path.withExtension "txt") with
    | some lyrics => (Lyrics.plain lyrics, [path.withExtension "txt"])
    | Option.none => (Lyrics.none, [])

/-! ### Input handling (`main.rs`, `State::event_handler`)

The pieces of `State` that the text-entry branch touches are the targeted
field, the scratch buffer (`current_string`), the filter, and the current
screen (used only to build the key-binding lookup in the other branch).
The normal-dispatch branch (`keymap.get(KeyBind {screen, keycode})` followed
by `Func::call`) is abstracted as a `dispatch` parameter acting on this
state. -/

inductive Screens where
  | main
  | filters
deriving DecidableEq, Repr

/-- Embeds `Fields` from `main.rs`. -/
inductive Fields where
  | title
  | artist
  | album
deriving DecidableEq, Repr

/-- The key codes `event_handler` distinguishes; every other
`crossterm::event::KeyCode` falls into `other`. -/
inductive KeyCode where
  | char (c : Char)
  | enter
  | backspace
  | other
deriving DecidableEq, Repr

/-- A key event: its code, and whether it is a press (`event.is_press()`). -/
structure KeyEvent where
  code : KeyCode
  press : Bool
deriving DecidableEq, Repr

/-- The slice of `State` that `event_handler`'s text-entry branch reads and
writes. -/
structure UiState where
  screen : Screens
  field : Option Fields
  current_string : String
  filter : Filter
deriving DecidableEq, Repr

/-- Embeds `State::set_field`. -/
def set_field (s : UiState) (field : Fields) (value : Option String) : UiState :=
  match field with
  | Fields.title => { s with filter := { s.filter with title := value } }
  | Fields.artist => { s with filter := { s.filter with artist := value } }
  | Fields.album => { s with filter := { s.filter with album := value } }

/-- Embeds `State::event_handler` on key events.  `dispatch` stands for the
`keymap.get(...)` lookup plus `Func::call` of the `None` branch; the
`Some(field)` branch never consults it. -/
def event_handler (dispatch : Screens → KeyCode → UiState → UiState)
    (ev : KeyEvent) (s : UiState) : UiState :=
  if !ev.press then s
  else
    match s.field with
    | some field =>
      match ev.code with
      | KeyCode.enter =>
          let str := if s.current_string.isEmpty then Option.none
                     else some s.current_string
          let s1 := if s.current_string.isEmpty then s
                    else { s with current_string := "" }
          let s2 := set_field s1 field str
          { s2 with field := Option.none }
      | KeyCode.char c => { s with current_string := s.current_string.push c }
      | KeyCode.backspace => { s with current_string := s.current_string.dropRight 1 }
      | KeyCode.other => s
    | Option.none => dispatch s.screen ev.code s

/-! ### FLAC tag parsing (`musicdata.rs`, `MusicData::from_file`)

`from_file` reads a FLAC file's tags; we embed the function of the parsed
tag block.  Its `Err` returns model the missing-tag early exits.  Two spots
can panic rather than return an error: `tags.get_streaminfo().unwrap()`
(when the file has no streaminfo block) and the `usize` division
`total_samples / sample_rate` (when the reported sample rate is zero).  A
panic aborts the program, so the run is modelled as `Option`: `Option.none`
is a panic, `some r` a normal return `r`. -/

structure StreamInfo where
  total_samples : Nat
  sample_rate : Nat
deriving DecidableEq, Repr

/-- A parsed FLAC tag block: the `get_vorbis` comment lists (each an
iterator of values in Rust) and the optional streaminfo block. -/
structure FlacTags where
  title : Option (List String)
  artist : Option (List String)
  album : Option (List String)
  streaminfo : Option StreamInfo
deriving DecidableEq, Repr

/-- Embeds `MusicData::from_file` after a successful `Tag::read_from_path`:
`some (Except.error _)` is an `Err` return, `some (Except.ok _)` an `Ok`
return, and `Option.none` a panic (aborting the whole process). -/
def from_file (tags : FlacTags) (flacFile : Path) :
    Option (Except String MusicData) :=
  match tags.title with
  | Option.none => some (Except.error "No title found")
  | some title =>
    match tags.artist with
    | Option.none => some (Except.error "No artist found")
    | some artist =>
      match tags.album with
      | Option.none => some (Except.error "No album found")
      | some album =>
        match tags.streaminfo with
        | Option.none => Option.none
        | some streaminfo =>
          if streaminfo.sample_rate = 0 then Option.none
          else
            some (Except.ok
              { title := (title.head?).getD ""
                artist := (artist.head?).getD ""
                album := (album.head?).getD ""
                duration := streaminfo.total_samples / streaminfo.sample_rate
                path := flacFile })

/-! ### Configuration (`main.rs`, `Settings` and `get_or_create_config`)

`default_music_path` depends on the process environment
(`XDG_MUSIC_DIR`, `HOME`, the working directory); its exact value never
matters to the claims, so it is a fixed abstract path here.
`get_or_create_config` branches on whether `default_config_path()` found an
existing config file; a file whose read fails is parsed as the empty
string, which `ron` rejects, so a read failure and a parse failure land in
the same branch. -/

/-- Stand-in for the environment-dependent `default_music_path()`. -/
def defaultMusicPath : Path :=
  ⟨"Music", Option.none⟩

/-- Embeds `Settings` from `main.rs`. -/
structure Settings where
  concurrent_queries : Nat
  music_path : Path
deriving DecidableEq, Repr

/-- Embeds `Settings::default()` (and the serde field defaults). -/
def defaultSettings : Settings :=
  ⟨50, defaultMusicPath⟩

/-- What the conventional config locations hold: `found p` when
`default_config_path()` returns a path whose contents parse to `p`
(`Option.none` when reading or `ron` parsing fails), `absentWithTarget`
when no config exists but `default_future_config_path()` offers a place to
write one, `absentNoTarget` when neither exists. -/
inductive ConfigSource where
  | found (parsed : Option Settings)
  | absentWithTarget
  | absentNoTarget
deriving DecidableEq, Repr

/-- The observable outcome of `get_or_create_config`: which settings (if
any) were passed to `Func::set_settings` — which applies the concurrency
limit and scans that settings' music path — and whether a default config
file write was attempted. -/
structure ConfigOutcome where
  settingsApplied : Option Settings
  defaultConfigWritten : Bool
deriving DecidableEq, Repr

/-- Embeds `get_or_create_config` from `main.rs`.  Note the `found Option.none`
row: when a config file exists but does not parse, the function does
nothing at all — `set_settings` is never called, so no music path is
scanned. -/
def get_or_create_config (src : ConfigSource) : ConfigOutcome :=
  match src with
  | ConfigSource.found (some settings) => ⟨some settings, false⟩
  | ConfigSource.found Option.none => ⟨Option.none, false⟩
  | ConfigSource.absentWithTarget => ⟨some defaultSettings, true⟩
  | ConfigSource.absentNoTarget => ⟨Option.none, false⟩

/-! ### Scan-selected (`main.rs`, `Func::scan_song`)

`scan_song` reads `state.table_state.selected()` and indexes
`state.music[selected]` — the unfiltered library list — although rendering
and the lyrics detail pane look the selection up in the filtered list
(`state.music.iter().filter(...).nth(selected)`).  Rust indexing panics
out of bounds. -/

inductive ScanSongResult where
  | noSelection
  | panicked
  | fetchRequested (m : MusicData)
deriving DecidableEq, Repr

/-- Embeds `Func::scan_song`: which track (if any) `Func::scan_music` is called
on; `panicked` models the out-of-bounds `state.music[selected]` panic. -/
def scan_song (music : List MusicData) (selected : Option Nat) : ScanSongResult :=
  match selected with
  | Option.none => ScanSongResult.noSelection
  | some i =>
    match music[i]? with
    | some m => ScanSongResult.fetchRequested m
    | Option.none => ScanSongResult.panicked

/-- The track the renderer and detail pane associate with selection index
`i`: the `i`-th element of the visible (filtered) set. -/
def visibleNth (music : List MusicData) (filter : Filter) (i : Nat) :
    Option MusicData :=
  (music.filter fun m => filter.apply m).get? i

/-- Embeds `State::default()` sets `table_state` to
`TableState::default().with_selected(Some(0))`. -/
def defaultTableSelection : Option Nat :=
  some 0

/-! ### Concrete fixtures used in witnesses and counterexamples -/

def trackPath : Path := ⟨"Music/song", some "flac"⟩

def trackA : MusicData :=
  ⟨"Song A", "Artist X", "Album Z", 180, ⟨"Music/a", some "flac"⟩⟩

def trackB : MusicData :=
  ⟨"Song B", "Brian Eno", "Album Z", 200, ⟨"Music/b", some "flac"⟩⟩

def emptyFilter : Filter := ⟨Option.none, Option.none, Option.none⟩

/-- A filter constraining only the artist, to the substring "eno". -/
def enoFilter : Filter := ⟨Option.none, some "eno", Option.none⟩

/-- A lyrics map holding `Lyrics::None` for every path. -/
def lyricsAllAbsent : Path → Option Lyrics := fun _ => some Lyrics.none

def emptyFS : FS := fun _ => Option.none

/-- A filesystem holding both an `.lrc` and a `.txt` sidecar for
`trackPath`. -/
def bothSidecarsFS : FS := fun p =>
  if p = trackPath.withExtension "lrc" then some "L1"
  else if p = trackPath.withExtension "txt" then some "T1"
  else Option.none

/-- A dispatch table standing in for `keymap.get` + `Func::call`; the
text-entry theorems show it is never consulted while a field is open. -/
def noDispatch : Screens → KeyCode → UiState → UiState := fun _ _ s => s

/-- Text-entry mode targeting the title field, scratch buffer `"Ab"`. -/
def scenarioState : UiState :=
  ⟨Screens.main, some Fields.title, "Ab", emptyFilter⟩

/-- A JSON decoder that rejects every body. -/
def parseAlwaysFails : String → Option ApiResponse := fun _ => Option.none

/-! ## Theorems -/

/-- Permit conservation: available plus held permits is the capacity. -/
theorem poolReachable_avail_add_running {cap : Nat} {s : PoolState}
    (h : PoolReachable cap s) : s.avail + s.running = cap := by
  induction h with
  | refl => simp [initPool]
  | tail _ step ih =>
    cases step with
    | spawn => simpa using ih
    | acquire ha hw => simp at ih ⊢; omega
    | release hr => simp at ih ⊢; omega

/-- The test in `Func::scan_all` accepts exactly a stored `Lyrics::None` or
`Lyrics::Plain`. -/
theorem retryCandidate_eq_true_iff (l : Option Lyrics) :
    retryCandidate l = true ↔
      l = some Lyrics.none ∨ ∃ t, l = some (Lyrics.plain t) := by
  cases l with
  | none => simp [retryCandidate]
  | some ly => cases ly <;> simp [retryCandidate]

/-- Claim C1 (amended).  After every reconciliation step of the event loop
(`done ≤ total` both right after the completion drain and at the end of the
iteration), the counters stay consistent with the set of in-flight tasks;
and the reset to `(0, 0)` happens at the start of a loop iteration exactly
when `done == total` holds there.  (The original claim's further clause —
that whenever equality is reached a reset precedes the next issued job —
fails: see the counterexample, where the drain inside an iteration reaches
equality and the same iteration's dispatch issues a job with no reset in
between.) -/
theorem loopIter_done_le_total (c : Counters) (k j : Nat)
    (hInv : CountersInv c) (hk : k ≤ c.inflight) :
    CountersInv (loopIter c k j) ∧
    (drainFetches (idleReset c) k).done ≤ (drainFetches (idleReset c) k).total ∧
    (loopIter c k j).done ≤ (loopIter c k j).total ∧
    (c.total = c.done → idleReset c = ⟨0, 0, c.inflight⟩) ∧
    (c.total ≠ c.done → idleReset c = c) := by
  obtain ⟨t, d, fl⟩ := c
  simp only [CountersInv, loopIter, issueJobs, drainFetches, idleReset] at *
  by_cases h : t = d <;> simp [h, Counters.mk.injEq] <;> omega

/-- Witness for claim C1's amended theorem at a concrete state: one job in
flight, its completion drained, two new jobs issued. -/
theorem loopIter_done_le_total_witness :
    CountersInv ⟨1, 0, 1⟩ ∧ 1 ≤ (⟨1, 0, 1⟩ : Counters).inflight ∧
    (loopIter ⟨1, 0, 1⟩ 1 2).done ≤ (loopIter ⟨1, 0, 1⟩ 1 2).total :=
  ⟨rfl, le_refl 1, (loopIter_done_le_total ⟨1, 0, 1⟩ 1 2 rfl (le_refl 1)).2.2.1⟩

/-- Counterexample for claim C1 as stated.  Concrete trace: an iteration
starts with `total = 1`, `done = 0`, one task in flight, so step 1 does not
reset; the drain joins that task, reaching `done = total = 1`; the same
iteration's dispatch then issues one fetch job, yielding `(total, done) =
(2, 1)`.  Equality was reached, yet the next job was issued with no reset
before it (a reset-then-issue would have produced `total = 1`, `done = 0`). -/
theorem loopIter_issue_after_equality_cex :
    (drainFetches (idleReset ⟨1, 0, 1⟩) 1).total
      = (drainFetches (idleReset ⟨1, 0, 1⟩) 1).done ∧
    loopIter ⟨1, 0, 1⟩ 1 1 = ⟨2, 1, 1⟩ ∧
    ¬((loopIter ⟨1, 0, 1⟩ 1 1).total = 1 ∧ (loopIter ⟨1, 0, 1⟩ 1 1).done = 0) := by
  decide

/-- Claim C2.  For a track `m` in the visible set (in the library and
passing the active filter), `scan_all` requests a fetch for `m` exactly
when the lyrics map holds `Absent` (`Lyrics::None`) or `Plain` for its
path; a stored `Synced` or `Instrumental` is never re-selected. -/
theorem scan_all_selects_absent_and_plain (music : List MusicData)
    (filter : Filter) (lyrics : Path → Option Lyrics) (m : MusicData)
    (hmem : m ∈ music) (hvis : filter.apply m = true) :
    (m ∈ scan_all music filter lyrics ↔
      lyrics m.path = some Lyrics.none ∨
        ∃ t, lyrics m.path = some (Lyrics.plain t)) ∧
    (∀ t, lyrics m.path = some (Lyrics.synced t) →
        m ∉ scan_all music filter lyrics) ∧
    (lyrics m.path = some Lyrics.instrumental →
        m ∉ scan_all music filter lyrics) := by
  have hmain : m ∈ scan_all music filter lyrics ↔
      retryCandidate (lyrics m.path) = true := by
    simp [scan_all, List.mem_filter, hmem, hvis]
  refine ⟨hmain.trans (retryCandidate_eq_true_iff _), ?_, ?_⟩
  · intro t ht hmem2
    have h := hmain.mp hmem2
    rw [ht] at h
    simp [retryCandidate] at h
  · intro ht hmem2
    have h := hmain.mp hmem2
    rw [ht] at h
    simp [retryCandidate] at h

/-- Witness for claim C2: with every lyric stored as `Absent`, the visible
track `trackB` is selected by `scan_all`. -/
theorem scan_all_selects_absent_and_plain_witness :
    trackB ∈ ([trackA, trackB] : List MusicData) ∧
    Filter.apply emptyFilter trackB = true ∧
    trackB ∈ scan_all [trackA, trackB] emptyFilter lyricsAllAbsent := by
  refine ⟨by simp, rfl, ?_⟩
  exact ((scan_all_selects_absent_and_plain [trackA, trackB] emptyFilter
    lyricsAllAbsent trackB (by simp) rfl).1).mpr (Or.inl rfl)

/-- Claim C3.  For all `N ≥ K ≥ 1`: in any reachable state of a network
pool of capacity `K` in which at most `N` fetch tasks have been spawned, at
most `K` operations are concurrently outstanding; and in any reachable
state of the disk pool (capacity `ConcurrencyBudget.disk`, `50` in
`State::default`), at most that many sidecar writes are in flight. -/
theorem pool_running_le_capacity (N K : Nat) (hK : 1 ≤ K) (hN : K ≤ N)
    (s : PoolState) (hs : PoolReachable K s)
    (hspawned : s.waiting + s.running + s.finished ≤ N)
    (diskCap : Nat) (w : PoolState) (hw : PoolReachable diskCap w) :
    s.running ≤ K ∧ w.running ≤ diskCap := by
  have h1 := poolReachable_avail_add_running hs
  have h2 := poolReachable_avail_add_running hw
  omega

/-- Witness for claim C3: network pool of size `1` with two requests
spawned and one running, disk pool of size `50` with one write running. -/
theorem pool_running_le_capacity_witness :
    (⟨0, 1, 1, 0⟩ : PoolState).running ≤ 1 ∧
    (⟨49, 0, 1, 0⟩ : PoolState).running ≤ 50 := by
  have t1 : PoolStep (initPool 1) ⟨1, 1, 0, 0⟩ := PoolStep.spawn _
  have t2 : PoolStep ⟨1, 1, 0, 0⟩ ⟨1, 2, 0, 0⟩ := PoolStep.spawn _
  have t3 : PoolStep ⟨1, 2, 0, 0⟩ ⟨0, 1, 1, 0⟩ :=
    PoolStep.acquire _ (by decide) (by decide)
  have hs : PoolReachable 1 ⟨0, 1, 1, 0⟩ :=
    ((Relation.ReflTransGen.refl.tail t1).tail t2).tail t3
  have u1 : PoolStep (initPool 50) ⟨50, 1, 0, 0⟩ := PoolStep.spawn _
  have u2 : PoolStep ⟨50, 1, 0, 0⟩ ⟨49, 0, 1, 0⟩ :=
    PoolStep.acquire _ (by decide) (by decide)
  have hw : PoolReachable 50 ⟨49, 0, 1, 0⟩ :=
    (Relation.ReflTransGen.refl.tail u1).tail u2
  exact pool_running_le_capacity 2 1 (le_refl 1) (by decide) _ hs (by decide) 50 _ hw

/-- Claim C4.  `MusicData::query` collapses every failure to `Absent`
(`Lyrics::None`): a transport error, a non-success HTTP status (whatever
the body), a body whose read fails, and a body the JSON decoder rejects all
yield `Lyrics.none`.  The function consumes exactly one `HttpOutcome` (a
single attempt, no retry) and its result type has no error constructor (no
error reaches the event loop). -/
theorem query_errors_collapse_to_absent (parse : String → Option ApiResponse)
    (status : Nat) (body : Option String) (text : String)
    (hstatus : statusIsSuccess status = false)
    (hparse : parse text = Option.none) :
    query HttpOutcome.transportError parse = Lyrics.none ∧
    query (HttpOutcome.response status body) parse = Lyrics.none ∧
    (∀ st, statusIsSuccess st = true →
      query (HttpOutcome.response st Option.none) parse = Lyrics.none) ∧
    (∀ st, statusIsSuccess st = true →
      query (HttpOutcome.response st (some text)) parse = Lyrics.none) := by
  refine ⟨rfl, ?_, ?_, ?_⟩
  · simp [query, hstatus]
  · intro st hst
    simp [query, hst]
  · intro st hst
    simp [query, hst, hparse]

/-- Witness for claim C4: status 404 and an unparseable body both yield
`Absent`. -/
theorem query_errors_collapse_to_absent_witness :
    statusIsSuccess 404 = false ∧ parseAlwaysFails "nonsense" = Option.none ∧
    query (HttpOutcome.response 404 (some "body")) parseAlwaysFails
      = Lyrics.none ∧
    query (HttpOutcome.response 200 (some "nonsense")) parseAlwaysFails
      = Lyrics.none := by
  have h := query_errors_collapse_to_absent parseAlwaysFails 404 (some "body")
    "nonsense" (by decide) rfl
  exact ⟨by decide, rfl, h.2.1, h.2.2.2 200 (by decide)⟩

/-- Claim C5.  Writing a `Synced(t)` result for a track and then re-probing
sidecar files for that track yields `Synced(t)` (reading only the `.lrc`
sidecar); the write lands at the track path with extension `lrc` for
`Synced` and `txt` for `Plain`, touches no other path, and `Absent` /
`Instrumental` leave the filesystem untouched. -/
theorem to_file_check_lyrics_round_trip (fs : FS) (path : Path)
    (t u : String) :
    check_lyrics (to_file (Lyrics.synced t) path fs) path
      = (Lyrics.synced t, [path.withExtension "lrc"]) ∧
    to_file (Lyrics.synced t) path fs (path.withExtension "lrc") = some t ∧
    to_file (Lyrics.plain u) path fs (path.withExtension "txt") = some u ∧
    to_file Lyrics.none path fs = fs ∧
    to_file Lyrics.instrumental path fs = fs ∧
    (∀ p, p ≠ path.withExtension "lrc" →
        to_file (Lyrics.synced t) path fs p = fs p) ∧
    (∀ p, p ≠ path.withExtension "txt" →
        to_file (Lyrics.plain u) path fs p = fs p) := by
  refine ⟨?_, ?_, ?_, rfl, rfl, ?_, ?_⟩
  · simp [check_lyrics, to_file]
  · simp [to_file]
  · simp [to_file]
  · intro p hp
    simp [to_file, hp]
  · intro p hp
    simp [to_file, hp]

/-- Witness for claim C5: concrete round trip of `Synced("abc")` over an
empty filesystem. -/
theorem to_file_check_lyrics_round_trip_witness :
    check_lyrics (to_file (Lyrics.synced "abc") trackPath emptyFS) trackPath
      = (Lyrics.synced "abc", [trackPath.withExtension "lrc"]) :=
  (to_file_check_lyrics_round_trip emptyFS trackPath "abc" "x").1

/-- Claim C6.  While text-entry mode is active (`state.field` is
`Some(f)`): a character key appends to the scratch buffer, backspace drops
its last character, enter commits the buffer to the targeted filter field
(`None` when the buffer is empty) and leaves text-entry mode, and the
result never depends on the keybinding table (`dispatch`).  The concrete
scenario: from buffer `"Ab"`, backspace then `'c'` yields `"Ac"`, and enter
commits `"Ac"` to the title field, clears the buffer and exits the mode. -/
theorem event_handler_text_entry (d d2 : Screens → KeyCode → UiState → UiState)
    (s : UiState) (f : Fields) (c : Char) (hf : s.field = some f) :
    event_handler d ⟨KeyCode.char c, true⟩ s
      = { s with current_string := s.current_string.push c } ∧
    event_handler d ⟨KeyCode.backspace, true⟩ s
      = { s with current_string := s.current_string.dropRight 1 } ∧
    (s.current_string.isEmpty = false →
      event_handler d ⟨KeyCode.enter, true⟩ s
        = { set_field s f (some s.current_string) with
              current_string := "", field := Option.none }) ∧
    (s.current_string.isEmpty = true →
      event_handler d ⟨KeyCode.enter, true⟩ s
        = { set_field s f Option.none with field := Option.none }) ∧
    (∀ k, event_handler d ⟨k, true⟩ s = event_handler d2 ⟨k, true⟩ s) ∧
    (event_handler noDispatch ⟨KeyCode.backspace, true⟩
        scenarioState).current_string = "A" ∧
    (event_handler noDispatch ⟨KeyCode.char 'c', true⟩
        (event_handler noDispatch ⟨KeyCode.backspace, true⟩
          scenarioState)).current_string = "Ac" ∧
    event_handler noDispatch ⟨KeyCode.enter, true⟩
        (event_handler noDispatch ⟨KeyCode.char 'c', true⟩
          (event_handler noDispatch ⟨KeyCode.backspace, true⟩ scenarioState))
      = ⟨Screens.main, Option.none, "", ⟨some "Ac", Option.none, Option.none⟩⟩ := by
  refine ⟨?_, ?_, ?_, ?_, ?_, by decide, by decide, by decide⟩
  · simp [event_handler, hf]
  · simp [event_handler, hf]
  · intro h
    cases f <;> simp [event_handler, hf, h, set_field]
  · intro h
    cases f <;> simp [event_handler, hf, h, set_field]
  · intro k
    cases k <;> simp [event_handler, hf]

/-- Witness for claim C6 at the scenario state. -/
theorem event_handler_text_entry_witness :
    scenarioState.field = some Fields.title ∧
    event_handler noDispatch ⟨KeyCode.char 'c', true⟩ scenarioState
      = { scenarioState with
            current_string := scenarioState.current_string.push 'c' } :=
  ⟨rfl, (event_handler_text_entry noDispatch noDispatch scenarioState
      Fields.title 'c' rfl).1⟩

/-- Claim C7 (code bug).  `MusicData::from_file` does *not* return an
error value for every malformed FLAC input: with all three vorbis tags
present, a file lacking a streaminfo block hits
`tags.get_streaminfo().unwrap()` and a file whose streaminfo reports a
zero sample rate hits the `usize` division `total_samples / sample_rate`;
both panic (`Option.none` here), aborting the whole scan — while the
caller `scan_music` is written to skip `Err` returns (third conjunct), as
the spec requires. -/
theorem from_file_panics_on_missing_streaminfo_or_zero_rate :
    from_file ⟨some ["T"], some ["A"], some ["B"], Option.none⟩ trackPath
      = Option.none ∧
    from_file ⟨some ["T"], some ["A"], some ["B"], some ⟨441000, 0⟩⟩ trackPath
      = Option.none ∧
    from_file ⟨Option.none, some ["A"], some ["B"], some ⟨441000, 44100⟩⟩
      trackPath = some (Except.error "No title found") :=
  ⟨rfl, rfl, rfl⟩

/-- Claim C8 (amended).  Only when no config file exists at any
conventional location does the program apply default `Settings` (scanning
the default music path) and write a default config file; a config file
that parses has its settings applied.  But when a config file exists and
is unreadable or unparseable, nothing is applied: `set_settings` is never
called, so no music path is scanned (the counterexample theorem exhibits
this branch). -/
theorem get_or_create_config_behaviour (s : Settings) :
    get_or_create_config ConfigSource.absentWithTarget
      = ⟨some defaultSettings, true⟩ ∧
    get_or_create_config (ConfigSource.found (some s)) = ⟨some s, false⟩ ∧
    get_or_create_config (ConfigSource.found Option.none)
      = ⟨Option.none, false⟩ :=
  ⟨rfl, rfl, rfl⟩

/-- Witness for claim C8's amended theorem at the default settings. -/
theorem get_or_create_config_behaviour_witness :
    get_or_create_config (ConfigSource.found (some defaultSettings))
      = ⟨some defaultSettings, false⟩ :=
  (get_or_create_config_behaviour defaultSettings).2.1

/-- Counterexample for claim C8 as stated: with an existing but
unparseable config file, the program does not fall back to loading default
settings — `set_settings` is never invoked, so in particular the default
music path is never scanned. -/
theorem get_or_create_config_unparseable_cex :
    (get_or_create_config (ConfigSource.found Option.none)).settingsApplied
      = Option.none ∧
    (get_or_create_config (ConfigSource.found Option.none)).settingsApplied
      ≠ some defaultSettings ∧
    (get_or_create_config (ConfigSource.found Option.none)).defaultConfigWritten
      = false := by
  decide

/-- Claim C9.  `Func::scan_song` fetches the `selected`-th element of the
*unfiltered* `state.music` list, although rendering and the detail pane
associate the selection with the `selected`-th element of the filtered
visible set (`visibleNth`); the concrete instance shows the two disagree
under `enoFilter`.  With the `State::default` selection `Some(0)` and an
empty library, the `state.music[0]` indexing panics. -/
theorem scan_song_uses_unfiltered_index (music : List MusicData) (i : Nat)
    (m : MusicData) (hm : music[i]? = some m) :
    scan_song music (some i) = ScanSongResult.fetchRequested m ∧
    scan_song [] defaultTableSelection = ScanSongResult.panicked ∧
    scan_song [trackA, trackB] defaultTableSelection
      = ScanSongResult.fetchRequested trackA ∧
    visibleNth [trackA, trackB] enoFilter 0 = some trackB ∧
    trackA ≠ trackB := by
  refine ⟨by simp [scan_song, hm], rfl, rfl, by decide, by decide⟩

/-- Witness for claim C9 at a one-track library. -/
theorem scan_song_uses_unfiltered_index_witness :
    ([trackA] : List MusicData)[0]? = some trackA ∧
    scan_song [trackA] (some 0) = ScanSongResult.fetchRequested trackA :=
  ⟨rfl, (scan_song_uses_unfiltered_index [trackA] 0 trackA rfl).1⟩

/-- Claim C10.  When both sidecar files exist for a track,
`MusicData::check_lyrics` probes the `.lrc` one first: the seeded result is
`Synced` with the `.lrc` contents, and the `.txt` sidecar is never read. -/
theorem check_lyrics_probes_lrc_before_txt (fs : FS) (path : Path)
    (a b : String)
    (hlrc : fs (path.withExtension "lrc") = some a)
    (htxt : fs (path.withExtension "txt") = some b) :
    check_lyrics fs path = (Lyrics.synced a, [path.withExtension "lrc"]) ∧
    path.withExtension "txt" ∉ (check_lyrics fs path).2 := by
  have h1 : check_lyrics fs path
      = (Lyrics.synced a, [path.withExtension "lrc"]) := by
    simp [check_lyrics, hlrc]
  refine ⟨h1, ?_⟩
  rw [h1]
  simp [Path.withExtension, Path.mk.injEq]

/-- Witness for claim C10 on the filesystem holding both sidecars. -/
theorem check_lyrics_probes_lrc_before_txt_witness :
    check_lyrics bothSidecarsFS trackPath
      = (Lyrics.synced "L1", [trackPath.withExtension "lrc"]) :=
  (check_lyrics_probes_lrc_before_txt bothSidecarsFS trackPath "L1" "T1"
    (by decide) (by decide)).1

end LrcFetch
